import Mathlib

/-!
Shallow embedding of the download-orchestration layer of the
spotify-downloader repository (`spotify_burner.py` and `src/downloader.py`),
together with proofs of the spec claims about it.

The external downloader (`spotdl`) and the subprocess machinery are
modelled as oracles: each attempted invocation is described by the exit
code and the raw output lines the process would produce (or by the
exception the attempt would raise).  The orchestration functions are
translated from the Python source line by line; `while` loops with an
increasing counter `retry_count` bounded by `max_retries` are translated
as structural recursion on the fuel `max_retries - retry_count`, carrying
`retry_count` alongside so that the "last retry" test
`retry_count >= max_retries - 1` becomes `fuel = 1`.
-/

namespace SpotifyBurner

/-- Python whitespace test used by `str.strip` (ASCII subset, which is all
that subprocess text output produces here). -/
def pyIsSpace (c : Char) : Bool :=
  c = ' ' || c = '\t' || c = '\n' || c = '\r' || c = '\x0b' || c = '\x0c'

/-- Model of Python `line.strip()`. -/
def pyStrip (s : String) : String :=
  String.mk (((s.toList.dropWhile pyIsSpace).reverse.dropWhile pyIsSpace).reverse)

/-- `needle` occurs at the head of `haystack`. -/
def isPrefixList : List Char → List Char → Bool
  | [], _ => true
  | _ :: _, [] => false
  | a :: as, b :: bs => a = b && isPrefixList as bs

/-- `needle` occurs somewhere in `haystack`; model of Python `sub in s`. -/
def containsSubAux (needle : List Char) : List Char → Bool
  | [] => isPrefixList needle []
  | c :: cs => isPrefixList needle (c :: cs) || containsSubAux needle cs

/-- Model of the Python substring test `sub in s`. -/
def containsSub (s sub : String) : Bool :=
  containsSubAux sub.toList s.toList

/-- Line filter of `_download_single_track`:
`if "ERROR" in line or "Error" in line`. -/
def isErrorLine (line : String) : Bool :=
  containsSub line "ERROR" || containsSub line "Error"

/-- The `output_lines` list built while reading the process output:
only truthy (nonempty) raw lines are appended, each stripped. -/
def pyOutputLines (raw : List String) : List String :=
  (raw.filter (fun l => !(l = ""))).map pyStrip

/-- One attempted invocation of the external downloader inside
`_download_single_track`: either the process ran and exited with a code
after producing output lines, or the attempt raised an exception
(`KeyboardInterrupt`, `subprocess.SubprocessError`, or any other
`Exception`), which the Python code catches in three separate handlers. -/
inductive Attempt where
  | run (exitCode : Int) (rawLines : List String)
  | keyboardInterrupt
  | subprocessError (msg : String)
  | otherError (msg : String)
deriving DecidableEq, Repr

/-- The dictionary returned by `_download_single_track`: always has a
boolean key `"success"`; the key `"error"` is present exactly on the
return paths that put it there. -/
structure DownloadResult where
  success : Bool
  error : Option String
deriving DecidableEq, Repr

/-- The error message compiled at the last retry of
`_download_single_track` (lines 3090-3095): the last line containing
`ERROR`/`Error` if any was collected, else the last output line, else
`"Unknown error"`. -/
def error_message (output_lines : List String) : String :=
  let error_lines := output_lines.filter isErrorLine
  match error_lines.getLast? with
  | some e => e
  | none =>
    match output_lines.getLast? with
    | some l => l
    | none => "Unknown error"

/-- The retry loop of `_download_single_track` (lines 3014-3148).
`rc` is Python's `retry_count`; `fuel` is `max_retries - retry_count`, so
the loop guard `retry_count < max_retries` is `fuel > 0` and the
last-retry test `retry_count >= max_retries - 1` is `fuel = 1`.
Returns the function result (`none` models falling off the end of the
function, Python's implicit `return None`) together with the number of
external-process invocations made (exceptions are modelled as raised by
`Popen` itself, before an invocation starts). -/
def downloadLoop (runs : Nat → Attempt) : Nat → Nat → Option DownloadResult × Nat
  | _, 0 => (none, 0)
  | rc, fuel + 1 =>
    match runs rc with
    | .run exitCode rawLines =>
      if exitCode = 0 then
        (some ⟨true, none⟩, 1)
      else if fuel = 0 then
        (some ⟨false, some (error_message (pyOutputLines rawLines))⟩, 1)
      else
        let rest := downloadLoop runs (rc + 1) fuel
        (rest.1, rest.2 + 1)
    | .keyboardInterrupt =>
      (some ⟨false, some "Interrupted by user"⟩, 0)
    | .subprocessError msg =>
      if fuel = 0 then
        (some ⟨false, some ("Process error: " ++ msg)⟩, 0)
      else
        downloadLoop runs (rc + 1) fuel
    | .otherError msg =>
      if fuel = 0 then
        (some ⟨false, some msg⟩, 0)
      else
        downloadLoop runs (rc + 1) fuel

/-- `_download_single_track(url, output_dir, progress, max_retries)`:
the value returned to the caller (`none` = Python `None`). -/
def download_single_track (runs : Nat → Attempt) (max_retries : Nat) :
    Option DownloadResult :=
  (downloadLoop runs 0 max_retries).1

/-- Number of external-downloader invocations `_download_single_track`
performs for one request. -/
def singleTrackInvocations (runs : Nat → Attempt) (max_retries : Nat) : Nat :=
  (downloadLoop runs 0 max_retries).2

/-- One attempted bulk (whole-album) invocation inside `download_tracks`
(lines 2819-2915): the process ran and exited with a code, or the attempt
raised an `Exception` (caught by the `except Exception` handler; the bulk
loop has no `KeyboardInterrupt` handler).  The bulk output lines are used
only for console display, so they are not modelled. -/
inductive BulkAttempt where
  | run (exitCode : Int)
  | exn (msg : String)
deriving DecidableEq, Repr

/-- The album bulk retry loop of `download_tracks` (lines 2815-2915),
with `MAX_RETRIES = 3`.  `rc` is `retry_count`, `fuel` is
`MAX_RETRIES - retry_count`, so the last-retry test
`retry_count >= MAX_RETRIES - 1` is `fuel = 1`.  Returns
(`album_download_success`, number of bulk invocations performed).
On exit code 0 the Python code returns `True` from the whole function;
here that is the `(true, _)` outcome, consumed by `download_tracks`. -/
def bulkLoop (bulkRuns : Nat → BulkAttempt) : Nat → Nat → Bool × Nat
  | _, 0 => (false, 0)
  | rc, fuel + 1 =>
    match bulkRuns rc with
    | .run exitCode =>
      if exitCode = 0 then
        (true, 1)
      else if fuel = 0 then
        (false, 1)
      else
        let rest := bulkLoop bulkRuns (rc + 1) fuel
        (rest.1, rest.2 + 1)
    | .exn _ =>
      if fuel = 0 then
        (false, 0)
      else
        bulkLoop bulkRuns (rc + 1) fuel

/-- The whole bulk phase: the retry loop entered with `retry_count = 0`
and `MAX_RETRIES = 3`. -/
def bulkPhase (bulkRuns : Nat → BulkAttempt) : Bool × Nat :=
  bulkLoop bulkRuns 0 3

/-- One step of the result-collection loop of `download_tracks`
(lines 2944-2961).  The accumulator is
(`successful_downloads`, `failed_tracks`).  A `none` future value models
`_download_single_track` returning `None`: the subscript
`result["success"]` raises `TypeError`, which the `except Exception`
handler turns into a `failed_tracks` entry; a failure dictionary without
an `"error"` key would likewise raise `KeyError` inside the handler-guarded
block and end up in `failed_tracks`. -/
def collectStep (acc : Nat × List (String × String))
    (p : String × Option DownloadResult) : Nat × List (String × String) :=
  match p.2 with
  | some d =>
    if d.success then
      (acc.1 + 1, acc.2)
    else
      (acc.1, acc.2 ++ [(p.1, d.error.getD "KeyError: error")])
  | none =>
    (acc.1, acc.2 ++ [(p.1, "TypeError: NoneType object is not subscriptable")])

/-- The result-collection loop over all futures, in submission order. -/
def collectResults (xs : List (String × Option DownloadResult)) :
    Nat × List (String × String) :=
  xs.foldl collectStep (0, [])

/-- The result-reporting tail of `download_tracks` (lines 2963-2989).
Python compares `successful_downloads >= len(track_urls) / 2` with exact
float division; over the integers in range this is `2 * succ >= total`. -/
def report_results (succ total : Nat) : Bool :=
  if succ = total then
    true
  else if 0 < succ then
    decide (2 * succ ≥ total)
  else
    false

/-- Observable trace of one `download_tracks` call: the returned boolean,
how many bulk invocations were made, which URLs were submitted to
per-track dispatch, and the final (`successful_downloads`,
`failed_tracks`) aggregation. -/
structure JobTrace where
  result : Bool
  bulkInvocations : Nat
  dispatched : List String
  succeeded : Nat
  failed : List (String × String)
deriving DecidableEq, Repr

/-- The bulk phase as guarded inside `download_tracks` (line 2815):
`if album_url and len(track_urls) > 1`.  When the guard is false no bulk
invocation happens. -/
def bulkOutcome (track_urls : List String) (album_url : Option String)
    (bulkRuns : Nat → BulkAttempt) : Bool × Nat :=
  if album_url.isSome && decide (1 < track_urls.length) then
    bulkPhase bulkRuns
  else
    (false, 0)

/-- The futures produced by submitting `_download_single_track` for every
URL (lines 2929-2938), with `MAX_RETRIES = 3`, indexed by submission
order. -/
def perTrackResults (track_urls : List String)
    (trackRuns : Nat → Nat → Attempt) : List (Option DownloadResult) :=
  (List.range track_urls.length).map
    (fun i => download_single_track (trackRuns i) 3)

/-- `download_tracks(track_urls, output_dir, album_url)`
(lines 2785-2995).  The filesystem `makedirs` call and all console and
progress output are not observable here; the external tool is the oracle
pair `bulkRuns` (bulk attempts) / `trackRuns` (per submitted task index,
per attempt).  With an empty `track_urls` the function returns `False`
before doing anything.  The bulk phase runs only when `album_url` is
present and `len(track_urls) > 1`; exit code 0 there returns `True` for
the whole call.  Otherwise every URL is submitted to the executor with
`MAX_RETRIES = 3` and the futures are collected in order. -/
def download_tracks (track_urls : List String) (album_url : Option String)
    (bulkRuns : Nat → BulkAttempt) (trackRuns : Nat → Nat → Attempt) :
    JobTrace :=
  if track_urls.isEmpty then
    ⟨false, 0, [], 0, []⟩
  else
    let bulk := bulkOutcome track_urls album_url bulkRuns
    if bulk.1 then
      ⟨true, bulk.2, [], 0, []⟩
    else
      let agg := collectResults
        (track_urls.zip (perTrackResults track_urls trackRuns))
      ⟨report_results agg.1 track_urls.length, bulk.2, track_urls, agg.1, agg.2⟩

/-- A bulk attempt whose process ran and exited with a non-zero code. -/
def BulkAttempt.isFailRun : BulkAttempt → Bool
  | .run c => decide (c ≠ 0)
  | .exn _ => false

/-- Whether a `_download_single_track` return value is a success
dictionary (Python `result["success"]` being truthy). -/
def succeededOpt : Option DownloadResult → Bool
  | some r => r.success
  | none => false

/-- Stated from the claim wording, for comparison with the code: "the
last non-empty line of the stderr/stdout output". -/
def specLastNonEmptyLine (lines : List String) : Option String :=
  (lines.filter (fun l => !(l = ""))).getLast?

/-- The slice of the persisted configuration that `SpotifyBurner.__init__`
reads for download orchestration: `self.config.get("max_threads", 3)`.
`none` models an absent key in the JSON config. -/
structure AppConfig where
  max_threads : Option Nat
deriving DecidableEq, Repr

/-- `self.max_threads = self.config.get("max_threads", 3)` (line 506). -/
def configMaxThreads (cfg : AppConfig) : Nat :=
  cfg.max_threads.getD 3

/-- `ThreadPoolExecutor(max_workers=self.max_threads)` (line 531): the
capacity of the worker pool `download_tracks` submits its tasks to. -/
def executorMaxWorkers (cfg : AppConfig) : Nat :=
  configMaxThreads cfg

/-- The values the settings UI accepts for "Maximum Threads"
(line 2518): `IntPrompt.ask(..., choices=range(1, 11))`. -/
def maxThreadsChoices : List Nat :=
  (List.range 10).map (fun i => i + 1)

/-- State of the worker pool during per-track dispatch: tasks not yet
started, tasks whose external invocation is in flight, tasks finished. -/
structure PoolState where
  pending : Nat
  running : Nat
  done : Nat
deriving DecidableEq, Repr

/-- Semantics of a `ThreadPoolExecutor` with `max_workers = limit`, as
documented for the Python standard library: a pending task may start only
while fewer than `limit` tasks are running, and a running task may
finish.  These are the only transitions during per-track dispatch. -/
inductive PoolStep (limit : Nat) : PoolState → PoolState → Prop where
  | start (p r d : Nat) : r < limit → 0 < p →
      PoolStep limit ⟨p, r, d⟩ ⟨p - 1, r + 1, d⟩
  | finish (p r d : Nat) : 0 < r →
      PoolStep limit ⟨p, r, d⟩ ⟨p, r - 1, d + 1⟩

/-- States the pool can reach from `init` by `PoolStep` transitions. -/
inductive PoolReachable (limit : Nat) (init : PoolState) : PoolState → Prop where
  | refl : PoolReachable limit init init
  | tail {s t : PoolState} : PoolReachable limit init s →
      PoolStep limit s t → PoolReachable limit init t

/-- Initial pool state of a per-track dispatch of `n` submitted tasks:
nothing running, nothing done. -/
def initialPool (n : Nat) : PoolState :=
  ⟨n, 0, 0⟩

end SpotifyBurner

namespace SrcDownloader

/-- Environment of `src/downloader.py`: whether `spotdl --version` exits 0
(`check_spotdl_installed`), and the exit code of the actual
`spotdl download` invocation for a given track id. -/
structure DlEnv where
  spotdlInstalled : Bool
  exitCode : String → Int

/-- Observable trace of one `download_track(track_id, output_directory)`
call: the returned boolean, how many `check_spotdl_installed` checks it
performed, and how many `spotdl download` invocations it made. -/
structure TrackCallTrace where
  success : Bool
  checks : Nat
  invocations : Nat
deriving DecidableEq, Repr

/-- `download_track` from `src/downloader.py` (lines 61-229): it first
calls `check_spotdl_installed()` itself; when the check fails it prints
installation instructions and returns `False` (a plain boolean, the same
value as any other failure); otherwise it runs `spotdl download` once and
returns whether the exit code was 0. -/
def download_track (env : DlEnv) (_track_id : String) : TrackCallTrace :=
  if env.spotdlInstalled then
    if env.exitCode _track_id = 0 then
      ⟨true, 1, 1⟩
    else
      ⟨false, 1, 1⟩
  else
    ⟨false, 1, 0⟩

/-- The per-track download loop of `src/playlist_manager.py`
(lines 107-142): `download_track` is called for each track in turn; a
failure only logs and the loop continues with the next track. -/
def downloadPlaylistTracks (env : DlEnv) (ids : List String) :
    List TrackCallTrace :=
  ids.map (download_track env)

/-- Total number of `check_spotdl_installed` checks performed while
processing a playlist. -/
def totalChecks (env : DlEnv) (ids : List String) : Nat :=
  ((downloadPlaylistTracks env ids).map TrackCallTrace.checks).sum

end SrcDownloader

namespace SpotifyBurner

example : download_single_track (fun _ => .run 0 []) 3 = some ⟨true, none⟩ := by decide

example : download_single_track (fun _ => .run 1 ["ERROR: boom\n", "done\n"]) 1
    = some ⟨false, some "ERROR: boom"⟩ := by decide

example : download_single_track (fun _ => .run 1 []) 3
    = some ⟨false, some "Unknown error"⟩ := by decide

example : singleTrackInvocations (fun _ => .run 1 []) 3 = 3 := by decide

example : download_single_track (fun _ => .run 1 []) 0 = none := by decide

example : download_tracks [] none (fun _ => .run 1) (fun _ _ => .run 1 [])
    = ⟨false, 0, [], 0, []⟩ := by decide

example : (download_tracks ["a", "b"] (some "al") (fun _ => .run 1)
    (fun _ _ => .run 0 [])).bulkInvocations = 3 := by decide

example : (download_tracks ["a", "b"] (some "al") (fun _ => .run 0)
    (fun _ _ => .run 1 [])) = ⟨true, 1, [], 0, []⟩ := by decide

example : (download_tracks ["a", "b", "c", "d"] none (fun _ => .run 0)
    (fun i _ => if i < 2 then .run 0 [] else .run 1 ["x\n"])) =
    ⟨true, 0, ["a", "b", "c", "d"], 2, [("c", "x"), ("d", "x")]⟩ := by decide

example : (download_tracks ["a", "b", "c", "d"] none (fun _ => .run 0)
    (fun i _ => if i < 1 then .run 0 [] else .run 1 [])).result = false := by decide

/-- Each step of the collection loop produces exactly one outcome: it
increments `successful_downloads` or appends one `failed_tracks` entry. -/
theorem collect_conserve (xs : List (String × Option DownloadResult)) :
    ∀ (s : Nat) (f : List (String × String)),
    (xs.foldl collectStep (s, f)).1 + ((xs.foldl collectStep (s, f)).2).length
      = s + f.length + xs.length := by
  induction xs with
  | nil => intro s f; simp
  | cons p rest ih =>
    intro s f
    rcases p with ⟨u, r⟩
    cases r with
    | some d =>
      by_cases hs : d.success = true
      · simp only [List.foldl_cons, collectStep, hs, if_pos]
        rw [ih]
        simp only [List.length_cons]
        omega
      · simp only [List.foldl_cons, collectStep, hs, if_neg, Bool.false_eq_true,
          not_false_iff]
        rw [ih]
        simp only [List.length_append, List.length_cons, List.length_nil]
        omega
    | none =>
      simp only [List.foldl_cons, collectStep]
      rw [ih]
      simp only [List.length_append, List.length_cons, List.length_nil]
      omega

/-- One-step unfolding of `bulkLoop` on a failed run with retries left. -/
theorem bulkLoop_step_run (bulkRuns : Nat → BulkAttempt) (rc fuel : Nat) (c : Int)
    (hbr : bulkRuns rc = BulkAttempt.run c) (hc : ¬c = 0) (hf : fuel ≠ 0) :
    bulkLoop bulkRuns rc (fuel + 1)
      = ((bulkLoop bulkRuns (rc + 1) fuel).1, (bulkLoop bulkRuns (rc + 1) fuel).2 + 1) := by
  cases fuel with
  | zero => exact absurd rfl hf
  | succ m => simp [bulkLoop, hbr, hc]

/-- One-step unfolding of `bulkLoop` on an exception with retries left. -/
theorem bulkLoop_step_exn (bulkRuns : Nat → BulkAttempt) (rc fuel : Nat) (m : String)
    (hbr : bulkRuns rc = BulkAttempt.exn m) (hf : fuel ≠ 0) :
    bulkLoop bulkRuns rc (fuel + 1) = bulkLoop bulkRuns (rc + 1) fuel := by
  cases fuel with
  | zero => exact absurd rfl hf
  | succ k => simp [bulkLoop, hbr]

/-- One-step unfolding of `downloadLoop` on a failed run with retries left. -/
theorem downloadLoop_step_run (runs : Nat → Attempt) (rc fuel : Nat) (c : Int)
    (l : List String) (hbr : runs rc = Attempt.run c l) (hc : ¬c = 0) (hf : fuel ≠ 0) :
    downloadLoop runs rc (fuel + 1)
      = ((downloadLoop runs (rc + 1) fuel).1, (downloadLoop runs (rc + 1) fuel).2 + 1) := by
  cases fuel with
  | zero => exact absurd rfl hf
  | succ m => simp [downloadLoop, hbr, hc]

/-- One-step unfolding of `downloadLoop` on a `SubprocessError` with
retries left. -/
theorem downloadLoop_step_subprocess (runs : Nat → Attempt) (rc fuel : Nat)
    (m : String) (hbr : runs rc = Attempt.subprocessError m) (hf : fuel ≠ 0) :
    downloadLoop runs rc (fuel + 1) = downloadLoop runs (rc + 1) fuel := by
  cases fuel with
  | zero => exact absurd rfl hf
  | succ k => simp [downloadLoop, hbr]

/-- One-step unfolding of `downloadLoop` on a generic exception with
retries left. -/
theorem downloadLoop_step_other (runs : Nat → Attempt) (rc fuel : Nat)
    (m : String) (hbr : runs rc = Attempt.otherError m) (hf : fuel ≠ 0) :
    downloadLoop runs rc (fuel + 1) = downloadLoop runs (rc + 1) fuel := by
  cases fuel with
  | zero => exact absurd rfl hf
  | succ k => simp [downloadLoop, hbr]

/-- If every bulk attempt in the window runs and exits non-zero, the bulk
loop makes exactly one invocation per remaining retry and reports no
success. -/
theorem bulkLoop_allfail (bulkRuns : Nat → BulkAttempt) :
    ∀ (fuel rc : Nat),
    (∀ i, rc ≤ i → i < rc + (fuel + 1) → (bulkRuns i).isFailRun = true) →
    bulkLoop bulkRuns rc (fuel + 1) = (false, fuel + 1) := by
  intro fuel
  induction fuel with
  | zero =>
    intro rc h
    have h0 := h rc (le_refl rc) (by omega)
    cases hbr : bulkRuns rc with
    | run c =>
      rw [hbr] at h0
      simp only [BulkAttempt.isFailRun, decide_eq_true_eq] at h0
      simp [bulkLoop, hbr, h0]
    | exn m =>
      rw [hbr] at h0
      simp [BulkAttempt.isFailRun] at h0
  | succ n ih =>
    intro rc h
    have h0 := h rc (le_refl rc) (by omega)
    cases hbr : bulkRuns rc with
    | run c =>
      rw [hbr] at h0
      simp only [BulkAttempt.isFailRun, decide_eq_true_eq] at h0
      have hrec := ih (rc + 1) (fun i h1 h2 => h i (by omega) (by omega))
      rw [bulkLoop_step_run bulkRuns rc (n + 1) c hbr h0 (Nat.succ_ne_zero n), hrec]
    | exn m =>
      rw [hbr] at h0
      simp [BulkAttempt.isFailRun] at h0

/-- If every attempt in the window runs and exits non-zero, the retry
loop makes one invocation per remaining retry and ends with the failure
dictionary built from the final attempt's output. -/
theorem downloadLoop_allfail (runs : Nat → Attempt) :
    ∀ (fuel rc : Nat),
    (∀ i, rc ≤ i → i < rc + (fuel + 1) → ∃ c l, runs i = Attempt.run c l ∧ c ≠ 0) →
    ∃ c l, runs (rc + fuel) = Attempt.run c l ∧
      downloadLoop runs rc (fuel + 1)
        = (some ⟨false, some (error_message (pyOutputLines l))⟩, fuel + 1) := by
  intro fuel
  induction fuel with
  | zero =>
    intro rc h
    obtain ⟨c, l, hr, hc⟩ := h rc (le_refl rc) (by omega)
    refine ⟨c, l, by simpa using hr, ?_⟩
    simp [downloadLoop, hr, hc]
  | succ n ih =>
    intro rc h
    obtain ⟨c, l, hr, hc⟩ := h rc (le_refl rc) (by omega)
    obtain ⟨c', l', hr', heq⟩ := ih (rc + 1) (fun i h1 h2 => h i (by omega) (by omega))
    refine ⟨c', l', ?_, ?_⟩
    · rw [show rc + (n + 1) = rc + 1 + n by omega]
      exact hr'
    · rw [downloadLoop_step_run runs rc (n + 1) c l hr hc (Nat.succ_ne_zero n), heq]

/-- With at least one retry available, the loop always returns a
dictionary, and a failure dictionary always carries an error string. -/
theorem downloadLoop_isSome (runs : Nat → Attempt) :
    ∀ (fuel rc : Nat),
    ∃ r, (downloadLoop runs rc (fuel + 1)).1 = some r ∧
      (r.success = false → ∃ m, r.error = some m) := by
  intro fuel
  induction fuel with
  | zero =>
    intro rc
    cases hbr : runs rc with
    | run c l =>
      by_cases hc : c = 0
      · exact ⟨⟨true, none⟩, by simp [downloadLoop, hbr, hc], by simp⟩
      · exact ⟨⟨false, some (error_message (pyOutputLines l))⟩,
          by simp [downloadLoop, hbr, hc], fun _ => ⟨_, rfl⟩⟩
    | keyboardInterrupt =>
      exact ⟨⟨false, some "Interrupted by user"⟩,
        by simp [downloadLoop, hbr], fun _ => ⟨_, rfl⟩⟩
    | subprocessError m =>
      exact ⟨⟨false, some ("Process error: " ++ m)⟩,
        by simp [downloadLoop, hbr], fun _ => ⟨_, rfl⟩⟩
    | otherError m =>
      exact ⟨⟨false, some m⟩, by simp [downloadLoop, hbr], fun _ => ⟨_, rfl⟩⟩
  | succ n ih =>
    intro rc
    cases hbr : runs rc with
    | run c l =>
      by_cases hc : c = 0
      · exact ⟨⟨true, none⟩, by simp [downloadLoop, hbr, hc], by simp⟩
      · obtain ⟨r, hr, he⟩ := ih (rc + 1)
        exact ⟨r,
          by rw [downloadLoop_step_run runs rc (n + 1) c l hbr hc (Nat.succ_ne_zero n)]
             exact hr, he⟩
    | keyboardInterrupt =>
      exact ⟨⟨false, some "Interrupted by user"⟩,
        by simp [downloadLoop, hbr], fun _ => ⟨_, rfl⟩⟩
    | subprocessError m =>
      obtain ⟨r, hr, he⟩ := ih (rc + 1)
      exact ⟨r,
        by rw [downloadLoop_step_subprocess runs rc (n + 1) m hbr (Nat.succ_ne_zero n)]
           exact hr, he⟩
    | otherError m =>
      obtain ⟨r, hr, he⟩ := ih (rc + 1)
      exact ⟨r,
        by rw [downloadLoop_step_other runs rc (n + 1) m hbr (Nat.succ_ne_zero n)]
           exact hr, he⟩

/-- For attempts that always run the process, the retry sequence succeeds
exactly when some attempt in the window exits 0. -/
theorem downloadLoop_success_iff (e : Nat → Int) (ls : Nat → List String) :
    ∀ (fuel rc : Nat),
    succeededOpt (downloadLoop (fun i => Attempt.run (e i) (ls i)) rc (fuel + 1)).1 = true
      ↔ ∃ k, rc ≤ k ∧ k < rc + (fuel + 1) ∧ e k = 0 := by
  intro fuel
  induction fuel with
  | zero =>
    intro rc
    constructor
    · intro hs
      by_cases h0 : e rc = 0
      · exact ⟨rc, le_refl rc, by omega, h0⟩
      · simp [downloadLoop, h0, succeededOpt] at hs
    · rintro ⟨k, hk1, hk2, hk3⟩
      have hk : k = rc := by omega
      subst hk
      simp [downloadLoop, hk3, succeededOpt]
  | succ n ih =>
    intro rc
    by_cases h0 : e rc = 0
    · constructor
      · intro _
        exact ⟨rc, le_refl rc, by omega, h0⟩
      · intro _
        simp [downloadLoop, h0, succeededOpt]
    · have hstep := downloadLoop_step_run (fun i => Attempt.run (e i) (ls i)) rc
        (n + 1) (e rc) (ls rc) rfl h0 (Nat.succ_ne_zero n)
      constructor
      · intro hs
        rw [hstep] at hs
        obtain ⟨k, h1, h2, h3⟩ := (ih (rc + 1)).1 hs
        exact ⟨k, by omega, by omega, h3⟩
      · rintro ⟨k, h1, h2, h3⟩
        have hk : rc + 1 ≤ k := by
          rcases Nat.eq_or_lt_of_le h1 with heq | hlt
          · exact absurd (heq ▸ h3) h0
          · omega
        rw [hstep]
        exact (ih (rc + 1)).2 ⟨k, hk, by omega, h3⟩

/-- The worker pool never exceeds its capacity: any state reachable from
a state within the limit stays within the limit. -/
theorem pool_invariant (limit : Nat) (init : PoolState)
    (hinit : init.running ≤ limit) :
    ∀ s, PoolReachable limit init s → s.running ≤ limit := by
  intro s hreach
  induction hreach with
  | refl => exact hinit
  | tail _ hstep ih =>
    cases hstep with
    | start p r d hr _ => exact hr
    | finish p r d _ => exact Nat.le_trans (Nat.sub_le r 1) ih

/-- `download_tracks` on a nonempty list whose bulk phase succeeded. -/
theorem download_tracks_eq_bulkSuccess (track_urls : List String)
    (album_url : Option String) (bulkRuns : Nat → BulkAttempt)
    (trackRuns : Nat → Nat → Attempt)
    (hne : track_urls.isEmpty = false)
    (hb : (bulkOutcome track_urls album_url bulkRuns).1 = true) :
    download_tracks track_urls album_url bulkRuns trackRuns
      = ⟨true, (bulkOutcome track_urls album_url bulkRuns).2, [], 0, []⟩ := by
  simp [download_tracks, hne, hb]

/-- `download_tracks` on a nonempty list whose bulk phase did not
succeed (or did not run): the per-track dispatch branch. -/
theorem download_tracks_eq_dispatch (track_urls : List String)
    (album_url : Option String) (bulkRuns : Nat → BulkAttempt)
    (trackRuns : Nat → Nat → Attempt)
    (hne : track_urls.isEmpty = false)
    (hb : (bulkOutcome track_urls album_url bulkRuns).1 = false) :
    download_tracks track_urls album_url bulkRuns trackRuns
      = ⟨report_results
            (collectResults
              (track_urls.zip (perTrackResults track_urls trackRuns))).1
            track_urls.length,
         (bulkOutcome track_urls album_url bulkRuns).2, track_urls,
         (collectResults
           (track_urls.zip (perTrackResults track_urls trackRuns))).1,
         (collectResults
           (track_urls.zip (perTrackResults track_urls trackRuns))).2⟩ := by
  simp [download_tracks, hne, hb]

/-- The zipped future list has one entry per submitted URL. -/
theorem zip_perTrackResults_length (track_urls : List String)
    (trackRuns : Nat → Nat → Attempt) :
    (track_urls.zip (perTrackResults track_urls trackRuns)).length
      = track_urls.length := by
  simp [perTrackResults]

/-- Summing the constant 1 over a list counts its elements. -/
theorem sum_map_one (l : List String) :
    (l.map (fun _ => (1 : Nat))).sum = l.length := by
  induction l with
  | nil => rfl
  | cons x xs ih => simp [ih]; omega

/-- C1: every request submitted to per-track dispatch yields exactly one
outcome: `successful_downloads` plus the length of `failed_tracks` equals
the number of dispatched requests, and whenever per-track dispatch runs
it covers the whole request list, so no failed request is dropped from
the aggregation. -/
theorem download_tracks_outcome_conservation (track_urls : List String)
    (album_url : Option String) (bulkRuns : Nat → BulkAttempt)
    (trackRuns : Nat → Nat → Attempt) :
    (download_tracks track_urls album_url bulkRuns trackRuns).succeeded
        + (download_tracks track_urls album_url bulkRuns trackRuns).failed.length
      = (download_tracks track_urls album_url bulkRuns trackRuns).dispatched.length
    ∧ ((download_tracks track_urls album_url bulkRuns trackRuns).dispatched = []
        ∨ (download_tracks track_urls album_url bulkRuns trackRuns).dispatched
            = track_urls) := by
  cases htu : track_urls with
  | nil => exact ⟨rfl, Or.inl rfl⟩
  | cons x xs =>
    have hne : (x :: xs).isEmpty = false := rfl
    by_cases hb : (bulkOutcome (x :: xs) album_url bulkRuns).1 = true
    · rw [download_tracks_eq_bulkSuccess (x :: xs) album_url bulkRuns trackRuns hne hb]
      exact ⟨rfl, Or.inl rfl⟩
    · have hb' : (bulkOutcome (x :: xs) album_url bulkRuns).1 = false :=
        Bool.eq_false_iff.mpr hb
      rw [download_tracks_eq_dispatch (x :: xs) album_url bulkRuns trackRuns hne hb']
      refine ⟨?_, Or.inr rfl⟩
      have hcons := collect_conserve
        ((x :: xs).zip (perTrackResults (x :: xs) trackRuns)) 0 []
      have hlen := zip_perTrackResults_length (x :: xs) trackRuns
      simp only [collectResults]
      simp only [List.length_nil] at hcons
      omega

/-- C2: the overall pass/fail policy of `download_tracks`: full success
reports `True`, zero successes report `False`, and a strict partial
success reports `True` exactly when at least half of the tracks
succeeded (`successful_downloads >= len(track_urls) / 2`, as the integer
inequality `2 * succ >= total`); in particular 2 of 4 passes and 1 of 4
fails.  Whenever per-track dispatch ran, the returned boolean is exactly
this policy applied to the aggregated counts. -/
theorem report_results_threshold :
    ∀ total : Nat, 1 ≤ total →
      (report_results 0 total = false
        ∧ report_results total total = true
        ∧ ∀ succ, 0 < succ → succ < total →
            (report_results succ total = true ↔ 2 * succ ≥ total))
      ∧ (report_results 2 4 = true ∧ report_results 1 4 = false)
      ∧ ∀ (track_urls : List String) (album_url : Option String)
          (bulkRuns : Nat → BulkAttempt) (trackRuns : Nat → Nat → Attempt),
          (download_tracks track_urls album_url bulkRuns trackRuns).dispatched ≠ [] →
          (download_tracks track_urls album_url bulkRuns trackRuns).result
            = report_results
                (download_tracks track_urls album_url bulkRuns trackRuns).succeeded
                (download_tracks track_urls album_url bulkRuns trackRuns).dispatched.length := by
  intro total ht
  refine ⟨⟨?_, ?_, ?_⟩, ⟨by decide, by decide⟩, ?_⟩
  · unfold report_results
    rw [if_neg (by omega : ¬(0 = total)), if_neg (by omega : ¬(0 < 0))]
  · unfold report_results
    rw [if_pos rfl]
  · intro succ h1 h2
    unfold report_results
    rw [if_neg (by omega : ¬(succ = total)), if_pos h1]
    exact decide_eq_true_iff
  · intro track_urls album_url bulkRuns trackRuns
    cases track_urls with
    | nil => intro h; exact absurd rfl h
    | cons x xs =>
      have hne : (x :: xs).isEmpty = false := rfl
      by_cases hb : (bulkOutcome (x :: xs) album_url bulkRuns).1 = true
      · rw [download_tracks_eq_bulkSuccess (x :: xs) album_url bulkRuns trackRuns hne hb]
        intro h; exact absurd rfl h
      · have hb' : (bulkOutcome (x :: xs) album_url bulkRuns).1 = false :=
          Bool.eq_false_iff.mpr hb
        rw [download_tracks_eq_dispatch (x :: xs) album_url bulkRuns trackRuns hne hb']
        intro _
        rfl

/-- C2 witness: the policy evaluated on the 4-track job of the claim. -/
theorem report_results_threshold_witness :
    report_results 0 4 = false ∧ report_results 4 4 = true
      ∧ (report_results 2 4 = true ↔ 2 * 2 ≥ 4)
      ∧ report_results 2 4 = true ∧ report_results 1 4 = false := by
  obtain ⟨⟨h0, h4, hmid⟩, ⟨h2, h1⟩, _⟩ := report_results_threshold 4 (by decide)
  exact ⟨h0, h4, hmid 2 (by decide) (by decide), h2, h1⟩

/-- C4 counterexample: on the empty request list `download_tracks`
returns `False`, not the overall success the claim states. -/
theorem download_tracks_empty_counterexample :
    (download_tracks [] none (fun _ => BulkAttempt.run 1)
      (fun _ _ => Attempt.run 1 [])).result ≠ true := by decide

/-- C4 amended: on the empty request list `download_tracks` returns
immediately with overall success `False`, zero successes, no failures,
and no external invocations of either kind. -/
theorem download_tracks_empty_returns_false :
    ∀ (album_url : Option String) (bulkRuns : Nat → BulkAttempt)
      (trackRuns : Nat → Nat → Attempt),
    download_tracks [] album_url bulkRuns trackRuns = ⟨false, 0, [], 0, []⟩ :=
  fun _ _ _ => rfl

/-- C5: when the job has a bulk hint, more than one request, and every
bulk attempt exits non-zero, the bulk outcome is discarded without
partial credit — the job trace (result, success count, failure list) is
identical to a run with no bulk hint at all — and per-track dispatch
covers the entire request list. -/
theorem bulk_fallback_entire_list (urls : List String) (a : String)
    (bulkRuns : Nat → BulkAttempt) (trackRuns : Nat → Nat → Attempt)
    (hlen : 1 < urls.length)
    (hfail : ∀ i, i < 3 → (bulkRuns i).isFailRun = true) :
    (download_tracks urls (some a) bulkRuns trackRuns).dispatched = urls
    ∧ (download_tracks urls (some a) bulkRuns trackRuns).result
        = (download_tracks urls none bulkRuns trackRuns).result
    ∧ (download_tracks urls (some a) bulkRuns trackRuns).succeeded
        = (download_tracks urls none bulkRuns trackRuns).succeeded
    ∧ (download_tracks urls (some a) bulkRuns trackRuns).failed
        = (download_tracks urls none bulkRuns trackRuns).failed := by
  have hbp : bulkPhase bulkRuns = (false, 3) :=
    bulkLoop_allfail bulkRuns 2 0 (fun i h1 h2 => hfail i (by omega))
  have hbo : bulkOutcome urls (some a) bulkRuns = (false, 3) := by
    simp [bulkOutcome, hlen, hbp]
  have hbo0 : bulkOutcome urls none bulkRuns = (false, 0) := by
    simp [bulkOutcome]
  have hne : urls.isEmpty = false := by
    cases urls with
    | nil => simp at hlen
    | cons x xs => rfl
  rw [download_tracks_eq_dispatch urls (some a) bulkRuns trackRuns hne
        (by rw [hbo]),
      download_tracks_eq_dispatch urls none bulkRuns trackRuns hne
        (by rw [hbo0])]
  exact ⟨rfl, rfl, rfl, rfl⟩

/-- C5 witness: a 2-track job whose bulk attempts all exit 1. -/
theorem bulk_fallback_entire_list_witness :
    (download_tracks ["a", "b"] (some "al") (fun _ => BulkAttempt.run 1)
        (fun _ _ => Attempt.run 0 [])).dispatched = ["a", "b"]
    ∧ (download_tracks ["a", "b"] (some "al") (fun _ => BulkAttempt.run 1)
        (fun _ _ => Attempt.run 0 [])).result
      = (download_tracks ["a", "b"] none (fun _ => BulkAttempt.run 1)
          (fun _ _ => Attempt.run 0 [])).result
    ∧ (download_tracks ["a", "b"] (some "al") (fun _ => BulkAttempt.run 1)
        (fun _ _ => Attempt.run 0 [])).succeeded
      = (download_tracks ["a", "b"] none (fun _ => BulkAttempt.run 1)
          (fun _ _ => Attempt.run 0 [])).succeeded
    ∧ (download_tracks ["a", "b"] (some "al") (fun _ => BulkAttempt.run 1)
        (fun _ _ => Attempt.run 0 [])).failed
      = (download_tracks ["a", "b"] none (fun _ => BulkAttempt.run 1)
          (fun _ _ => Attempt.run 0 [])).failed :=
  bulk_fallback_entire_list ["a", "b"] "al" (fun _ => BulkAttempt.run 1)
    (fun _ _ => Attempt.run 0 []) (by decide) (by decide)

/-- C6 counterexample: with a bulk hint, two requests, and a bulk process
that always exits 1, `download_tracks` makes three bulk invocations
before falling back, not exactly one as the claim states. -/
theorem bulk_single_invocation_counterexample :
    (download_tracks ["a", "b"] (some "al") (fun _ => BulkAttempt.run 1)
      (fun _ _ => Attempt.run 0 [])).bulkInvocations = 3
    ∧ (3 : Nat) ≠ 1 := by decide

/-- C6 amended: with a bulk hint and more than one request the bulk
phase is retried up to `MAX_RETRIES = 3` times: if the first bulk
process exits 0 exactly one bulk invocation happens and the job
completes successfully with no per-track dispatch; if every bulk attempt
exits non-zero exactly three bulk invocations happen and then per-track
dispatch runs for the whole list. -/
theorem bulk_invocation_count (urls : List String) (a : String)
    (bulkRuns : Nat → BulkAttempt) (trackRuns : Nat → Nat → Attempt)
    (hlen : 1 < urls.length) :
    (bulkRuns 0 = BulkAttempt.run 0 →
      download_tracks urls (some a) bulkRuns trackRuns = ⟨true, 1, [], 0, []⟩)
    ∧ ((∀ i, i < 3 → (bulkRuns i).isFailRun = true) →
        (download_tracks urls (some a) bulkRuns trackRuns).bulkInvocations = 3
        ∧ (download_tracks urls (some a) bulkRuns trackRuns).dispatched = urls) := by
  have hne : urls.isEmpty = false := by
    cases urls with
    | nil => simp at hlen
    | cons x xs => rfl
  constructor
  · intro h0
    have hbp : bulkPhase bulkRuns = (true, 1) := by
      simp [bulkPhase, bulkLoop, h0]
    have hbo : bulkOutcome urls (some a) bulkRuns = (true, 1) := by
      simp [bulkOutcome, hlen, hbp]
    rw [download_tracks_eq_bulkSuccess urls (some a) bulkRuns trackRuns hne
          (by rw [hbo]), hbo]
  · intro hfail
    have hbp : bulkPhase bulkRuns = (false, 3) :=
      bulkLoop_allfail bulkRuns 2 0 (fun i h1 h2 => hfail i (by omega))
    have hbo : bulkOutcome urls (some a) bulkRuns = (false, 3) := by
      simp [bulkOutcome, hlen, hbp]
    rw [download_tracks_eq_dispatch urls (some a) bulkRuns trackRuns hne
          (by rw [hbo])]
    exact ⟨by rw [hbo], rfl⟩

/-- C6 witness: both amended cases on a concrete 2-track job. -/
theorem bulk_invocation_count_witness :
    download_tracks ["a", "b"] (some "al") (fun _ => BulkAttempt.run 0)
        (fun _ _ => Attempt.run 1 []) = ⟨true, 1, [], 0, []⟩
    ∧ (download_tracks ["a", "b"] (some "al") (fun _ => BulkAttempt.run 1)
        (fun _ _ => Attempt.run 1 [])).bulkInvocations = 3
    ∧ (download_tracks ["a", "b"] (some "al") (fun _ => BulkAttempt.run 1)
        (fun _ _ => Attempt.run 1 [])).dispatched = ["a", "b"] := by
  have h1 := (bulk_invocation_count ["a", "b"] "al" (fun _ => BulkAttempt.run 0)
    (fun _ _ => Attempt.run 1 []) (by decide)).1 rfl
  have h2 := (bulk_invocation_count ["a", "b"] "al" (fun _ => BulkAttempt.run 1)
    (fun _ _ => Attempt.run 1 []) (by decide)).2 (by decide)
  exact ⟨h1, h2.1, h2.2⟩

/-- C7: a request whose external invocation runs and exits non-zero on
every attempt is invoked exactly `max_retries` times — no more, no fewer
— and is then recorded as failed with an error string. -/
theorem retry_bound (runs : Nat → Attempt) (max_retries : Nat)
    (hmr : 1 ≤ max_retries)
    (hfail : ∀ i, i < max_retries → ∃ c l, runs i = Attempt.run c l ∧ c ≠ 0) :
    singleTrackInvocations runs max_retries = max_retries
    ∧ ∃ m, download_single_track runs max_retries = some ⟨false, some m⟩ := by
  obtain ⟨k, rfl⟩ : ∃ k, max_retries = k + 1 := ⟨max_retries - 1, by omega⟩
  obtain ⟨c, l, hr, heq⟩ := downloadLoop_allfail runs k 0
    (fun i h1 h2 => hfail i (by omega))
  constructor
  · simp [singleTrackInvocations, heq]
  · exact ⟨error_message (pyOutputLines l),
      by simp [download_single_track, heq]⟩

/-- C7 witness: an always-failing track with the default
`MAX_RETRIES = 3` is invoked exactly 3 times. -/
theorem retry_bound_witness :
    singleTrackInvocations (fun _ => Attempt.run 1 []) 3 = 3
    ∧ ∃ m, download_single_track (fun _ => Attempt.run 1 []) 3
        = some ⟨false, some m⟩ :=
  retry_bound (fun _ => Attempt.run 1 []) 3 (by decide)
    (fun i _ => ⟨1, [], rfl, by decide⟩)

/-- C8 counterexample: a failing attempt whose output is an `ERROR` line
followed by a later non-empty line records the `ERROR` line, not the
last non-empty line of the output as the claim states. -/
theorem error_detail_counterexample :
    download_single_track
        (fun _ => Attempt.run 1 ["ERROR: boom\n", "done\n"]) 1
      = some ⟨false, some "ERROR: boom"⟩
    ∧ specLastNonEmptyLine (pyOutputLines ["ERROR: boom\n", "done\n"])
      = some "done"
    ∧ ("ERROR: boom" : String) ≠ "done" := by decide

/-- C8 amended: over attempts that run the external process, the retry
sequence succeeds exactly when some attempt within the budget exits 0
(each attempt succeeds iff its exit code is 0); when every attempt exits
non-zero, the recorded error detail is computed by `error_message` from
the final attempt's captured output: the last line containing
`ERROR`/`Error` if one exists, otherwise the last captured (stripped)
line, otherwise `"Unknown error"`. -/
theorem attempt_exit_code_semantics (e : Nat → Int) (ls : Nat → List String)
    (mr : Nat) (hmr : 1 ≤ mr) :
    (succeededOpt (download_single_track
        (fun i => Attempt.run (e i) (ls i)) mr) = true
      ↔ ∃ k, k < mr ∧ e k = 0)
    ∧ ((∀ k, k < mr → e k ≠ 0) →
        download_single_track (fun i => Attempt.run (e i) (ls i)) mr
          = some ⟨false, some (error_message (pyOutputLines (ls (mr - 1))))⟩) := by
  obtain ⟨n, rfl⟩ : ∃ n, mr = n + 1 := ⟨mr - 1, by omega⟩
  constructor
  · constructor
    · intro hs
      obtain ⟨k, _, h2, h3⟩ := (downloadLoop_success_iff e ls n 0).1 hs
      exact ⟨k, by omega, h3⟩
    · rintro ⟨k, h1, h2⟩
      exact (downloadLoop_success_iff e ls n 0).2 ⟨k, by omega, by omega, h2⟩
  · intro hfail
    obtain ⟨c, l, hr, heq⟩ := downloadLoop_allfail
      (fun i => Attempt.run (e i) (ls i)) n 0
      (fun i h1 h2 => ⟨e i, ls i, rfl, hfail i (by omega)⟩)
    have hr' : Attempt.run (e (0 + n)) (ls (0 + n)) = Attempt.run c l := hr
    injection hr' with hce hle
    show (downloadLoop (fun i => Attempt.run (e i) (ls i)) 0 (n + 1)).1 = _
    rw [heq, ← hle]
    simp

/-- C8 amended witness: one always-failing attempt sequence records the
`error_message` of its final attempt. -/
theorem attempt_exit_code_semantics_witness :
    download_single_track (fun _ => Attempt.run 1 ["ERROR: boom\n", "done\n"]) 1
      = some ⟨false,
          some (error_message (pyOutputLines ["ERROR: boom\n", "done\n"]))⟩ :=
  (attempt_exit_code_semantics (fun _ => 1)
    (fun _ => ["ERROR: boom\n", "done\n"]) 1 (by decide)).2
    (fun k hk => by decide)

/-- C10: with `max_retries >= 1`, `_download_single_track` always
returns a dictionary with a boolean `success` entry whose failure form
carries an error string; with `max_retries = 0` the retry loop never
runs and the function returns `None`, which the collection loop of
`download_tracks` can only treat as a raised `TypeError` (the
`result["success"]` subscript fails). -/
theorem single_track_totality :
    (∀ (runs : Nat → Attempt) (mr : Nat), 1 ≤ mr →
      ∃ r, download_single_track runs mr = some r
        ∧ (r.success = false → ∃ m, r.error = some m))
    ∧ (∀ runs : Nat → Attempt, download_single_track runs 0 = none)
    ∧ (∀ (acc : Nat × List (String × String)) (u : String),
        collectStep acc (u, none)
          = (acc.1, acc.2
              ++ [(u, "TypeError: NoneType object is not subscriptable")])) := by
  refine ⟨?_, fun runs => rfl, fun acc u => rfl⟩
  intro runs mr hmr
  obtain ⟨n, rfl⟩ : ∃ n, mr = n + 1 := ⟨mr - 1, by omega⟩
  exact downloadLoop_isSome runs n 0

/-- C10 witness: one failing attempt with `max_retries = 1`. -/
theorem single_track_totality_witness :
    ∃ r, download_single_track (fun _ => Attempt.run 1 []) 1 = some r
      ∧ (r.success = false → ∃ m, r.error = some m) :=
  single_track_totality.1 (fun _ => Attempt.run 1 []) 1 (by decide)

/-- C3: in the worker-pool semantics of the executor that
`download_tracks` submits its per-track tasks to, no reachable state of a
dispatch has more than `max_workers` invocations in flight, where
`max_workers` is the configured `max_threads`; the config default is 3
and every value the settings UI accepts lies in `[1, 10]`. -/
theorem pool_concurrency_bound :
    (∀ (cfg : AppConfig) (n : Nat) (s : PoolState),
      PoolReachable (executorMaxWorkers cfg) (initialPool n) s →
      s.running ≤ executorMaxWorkers cfg)
    ∧ executorMaxWorkers ⟨none⟩ = 3
    ∧ ∀ c ∈ maxThreadsChoices, 1 ≤ c ∧ c ≤ 10 := by
  refine ⟨?_, rfl, by decide⟩
  intro cfg n s h
  exact pool_invariant (executorMaxWorkers cfg) (initialPool n)
    (Nat.zero_le _) s h

/-- C3 witness: a concrete reachable state of a 5-task dispatch with the
default limit 3 stays within the bound. -/
theorem pool_concurrency_bound_witness :
    (⟨4, 1, 0⟩ : PoolState).running ≤ executorMaxWorkers ⟨some 3⟩ :=
  pool_concurrency_bound.1 ⟨some 3⟩ 5 ⟨4, 1, 0⟩
    (PoolReachable.tail PoolReachable.refl
      (PoolStep.start 5 0 0 (by decide) (by decide)))

end SpotifyBurner

namespace SrcDownloader

/-- C9 counterexample: with `spotdl` missing, a 2-track playlist run
performs the installation check twice — once inside each
`download_track` call — and still attempts the second task after the
first failed check; the claim says the check happens exactly once before
dispatch and no tasks are attempted after it fails. -/
theorem setup_check_counterexample :
    totalChecks ⟨false, fun _ => 0⟩ ["a", "b"] = 2
    ∧ (2 : Nat) ≠ 1
    ∧ downloadPlaylistTracks ⟨false, fun _ => 0⟩ ["a", "b"]
        = [⟨false, 1, 0⟩, ⟨false, 1, 0⟩] := by decide

/-- C9 amended: the `spotdl` installation check lives inside each
`download_track` call: when the tool is missing every task performs its
own check (one per task, `ids.length` in total, not one per job), fails
individually with a plain `False` and no downloader invocation, and
subsequent tasks are still attempted. -/
theorem per_call_setup_check (env : DlEnv) (ids : List String)
    (hmiss : env.spotdlInstalled = false) :
    totalChecks env ids = ids.length
    ∧ ∀ t ∈ downloadPlaylistTracks env ids, t = ⟨false, 1, 0⟩ := by
  have hdt : ∀ tid, download_track env tid = ⟨false, 1, 0⟩ := by
    intro tid
    simp [download_track, hmiss]
  have hmap : (fun tid => (download_track env tid).checks) = fun _ => (1 : Nat) :=
    funext (fun tid => by rw [hdt tid])
  constructor
  · unfold totalChecks downloadPlaylistTracks
    rw [List.map_map]
    have : (TrackCallTrace.checks ∘ download_track env) = fun _ => (1 : Nat) :=
      funext (fun tid => by simp [Function.comp, hdt tid])
    rw [this]
    exact SpotifyBurner.sum_map_one ids
  · intro t ht
    unfold downloadPlaylistTracks at ht
    obtain ⟨tid, _, rfl⟩ := List.mem_map.mp ht
    exact hdt tid

/-- C9 amended witness: a concrete 2-track playlist with `spotdl`
missing. -/
theorem per_call_setup_check_witness :
    totalChecks ⟨false, fun _ => 0⟩ ["a", "b"]
        = (["a", "b"] : List String).length
    ∧ ∀ t ∈ downloadPlaylistTracks ⟨false, fun _ => 0⟩ ["a", "b"],
        t = ⟨false, 1, 0⟩ :=
  per_call_setup_check ⟨false, fun _ => 0⟩ ["a", "b"] rfl

end SrcDownloader
